import Mathlib

/-!
Verification of the RAG pipeline core (backend/rag) against its specification.

The Python source is shallowly embedded: pure logic becomes Lean functions,
numeric similarity/threshold arithmetic is modelled over ℚ, external services
(embedding model, LLM oracle, OCR engine, vision oracle, tokenizer) become
explicit function or value parameters, and fallible oracle calls become
`Except` values.
-/

namespace Rag

/-! ### Retriever (backend/rag/pipeline/retriever.py) -/

/-- A row of the `document_chunks` table as selected by `_execute_vector_search`.
The pgvector `embedding <=> query` cosine distance is computed by the external
database backend; it is modelled below as a parameter `dist : DBRow → ℚ`. -/
structure DBRow where
  id : Nat
  content : String
  document_id : String
  doc_type : String
  asset_id : Option String
  user_id : String
deriving DecidableEq, Repr

/-- `SIMILARITY_THRESHOLD = 0.25` from retriever.py. -/
def SIMILARITY_THRESHOLD : ℚ := 0.25

/-- `DEFAULT_TOP_K = 8` from retriever.py. -/
def DEFAULT_TOP_K : Nat := 8

/-- A retrieved document chunk with its similarity score (`RetrievedChunk`). -/
structure RetrievedChunk where
  content : String
  document_id : String
  doc_type : String
  similarity : ℚ
  asset_id : Option String
deriving DecidableEq, Repr

/-- The SQL of `_execute_vector_search`:
`WHERE user_id = %s AND (1 - (embedding <=> q)) >= SIMILARITY_THRESHOLD
 ORDER BY embedding <=> q LIMIT top_k`.
Filter, then sort by ascending distance, then limit. -/
def execute_vector_search (db : List DBRow) (dist : DBRow → ℚ)
    (user_id : String) (top_k : Nat) : List DBRow :=
  (List.insertionSort (fun a b => dist a ≤ dist b)
    (db.filter (fun r => r.user_id == user_id &&
      decide (SIMILARITY_THRESHOLD ≤ 1 - dist r)))).take top_k

/-- The row-to-`RetrievedChunk` conversion in `Retriever.retrieve`:
`asset_id = str(row[4]) if row[4] else None`, `similarity = float(row[5])`
where the SQL computed `similarity = 1 - (embedding <=> q)`. -/
def rowToChunk (dist : DBRow → ℚ) (r : DBRow) : RetrievedChunk :=
  { content := r.content
    document_id := r.document_id
    doc_type := r.doc_type
    similarity := 1 - dist r
    asset_id :=
      match r.asset_id with
      | some s => if s = "" then none else some s
      | none => none }

/-- `Retriever.retrieve(query, user_id, top_k)`: the query embedding step is the
external `EmbeddingsService`; its effect is captured by the distance function
`dist` the database evaluates against the embedded query. -/
def retrieve (db : List DBRow) (dist : DBRow → ℚ) (user_id : String)
    (top_k : Nat := DEFAULT_TOP_K) : List RetrievedChunk :=
  (execute_vector_search db dist user_id top_k).map (rowToChunk dist)

/-- `Retriever.format_context`. -/
def format_context (chunks : List RetrievedChunk) : Option String :=
  if chunks = [] then none
  else some (String.intercalate "\n\n---\n\n"
    (chunks.enum.map (fun p =>
      "[Document " ++ toString (p.1 + 1) ++ " - " ++ p.2.doc_type.toUpper ++ "]\n"
        ++ p.2.content)))

/-- `Retriever.has_relevant_context`: `len(chunks) > 0`. -/
def has_relevant_context (chunks : List RetrievedChunk) : Bool :=
  decide (0 < chunks.length)

/-- Python `str.strip()`: drop leading and trailing whitespace. (Lean's own
`String.trim` is defined by well-founded recursion on byte positions and does
not evaluate definitionally, so the embedding uses this structurally recursive
equivalent over the character list.) -/
def pyStrip (s : String) : String :=
  String.mk ((s.data.dropWhile Char.isWhitespace).reverse.dropWhile
    Char.isWhitespace).reverse

/-! ### Generator (backend/rag/pipeline/generator.py) -/

/-- `SourceSnippet` dataclass. -/
structure SourceSnippet where
  asset_id : String
  excerpt : String
deriving DecidableEq, Repr

/-- `GeneratedAnswer` dataclass. -/
structure GeneratedAnswer where
  answer : String
  used_context : Bool
  sources : Option (List SourceSnippet)
deriving DecidableEq, Repr

/-- `Generator.generate(question, chunks)`. The single LLM oracle call
(`LLMService.complete`) is external; its returned text is the `answer`
parameter. `use_context := chunks is not None and has_relevant_context(chunks)`;
`sources` are attached under `if use_context and chunks`, taking the first
three chunks with a 100-character excerpt; the final answer is stripped. -/
def generate (answer : String) (question : String)
    (chunks : Option (List RetrievedChunk)) : GeneratedAnswer :=
  let use_context : Bool :=
    match chunks with
    | none => false
    | some cs => has_relevant_context cs
  let sources : Option (List SourceSnippet) :=
    match chunks with
    | none => none
    | some cs =>
      if use_context && !cs.isEmpty then
        some ((cs.take 3).map (fun c =>
          { asset_id :=
              match c.asset_id with
              | some s => if s = "" then "unknown" else s
              | none => "unknown"
            excerpt := c.content.take 100 }))
      else none
  { answer := pyStrip answer, used_context := use_context, sources := sources }

/-- The event type yielded by `Generator.stream_generate`: token dicts
`{"type": "token", "content": ...}` and the terminal dict
`{"type": "done", "used_context": ..., "sources": ...}` whose source entries
are `(asset_id, excerpt)` dictionaries. -/
inductive StreamEvent where
  | token (content : String)
  | done (used_context : Bool) (sources : Option (List (String × String)))
deriving DecidableEq, Repr

/-- The `async for token in stream: yield token-event` loop of
`stream_generate`, followed by the single terminal `done` yield once the
upstream token stream is exhausted. -/
def emitTokens (toks : List String) (used_context : Bool)
    (sources : Option (List (String × String))) : List StreamEvent :=
  match toks with
  | [] => [StreamEvent.done used_context sources]
  | t :: rest => StreamEvent.token t :: emitTokens rest used_context sources

/-- `Generator.stream_generate(question, chunks)`. The upstream
`LLMService.stream_complete` fragments are the `toks` parameter; the
`use_context`/`sources` logic is written out again exactly as the source
duplicates it in the streaming method. -/
def stream_generate (toks : List String) (question : String)
    (chunks : Option (List RetrievedChunk)) : List StreamEvent :=
  let use_context : Bool :=
    match chunks with
    | none => false
    | some cs => has_relevant_context cs
  let sources : Option (List (String × String)) :=
    match chunks with
    | none => none
    | some cs =>
      if use_context && !cs.isEmpty then
        some ((cs.take 3).map (fun c =>
          (match c.asset_id with
           | some s => if s = "" then "unknown" else s
           | none => "unknown",
           c.content.take 100)))
      else none
  emitTokens toks use_context sources

/-! ### Query classifier (backend/rag/pipeline/query_classifier.py) -/

/-- `QueryType` enum. -/
inductive QueryType where
  | GENERAL
  | PROFILE_DEPENDENT
  | HYBRID
deriving DecidableEq, Repr

/-- A JSON value as produced by `json.loads` inside `LLMService.complete_json`. -/
inductive JsonVal where
  | str (s : String)
  | num (n : Int)
  | boolean (b : Bool)
  | null
deriving DecidableEq, Repr

/-- The `QueryType(raw_type)` enum construction: succeeds exactly on the three
member strings, raises `ValueError` (here `none`) on any other value. -/
def queryTypeOfJson (v : JsonVal) : Option QueryType :=
  if v = JsonVal.str "GENERAL" then some QueryType.GENERAL
  else if v = JsonVal.str "PROFILE_DEPENDENT" then
    some QueryType.PROFILE_DEPENDENT
  else if v = JsonVal.str "HYBRID" then some QueryType.HYBRID
  else none

/-- The `.value` string of each `QueryType` member. -/
def queryTypeName : QueryType → String
  | QueryType.GENERAL => "GENERAL"
  | QueryType.PROFILE_DEPENDENT => "PROFILE_DEPENDENT"
  | QueryType.HYBRID => "HYBRID"

/-- `QueryClassifier.classify(query)`. The oracle call
`LLMService.complete_json` is external and fallible: `Except.error` models any
exception it raises (API failure, or `json.loads` failure on non-JSON output);
`Except.ok` carries the parsed JSON object. In the source, the `await` of the
oracle sits outside the `try`, so an oracle exception propagates; only the
`QueryType(raw_type)` construction is guarded, with GENERAL as fallback. -/
def classify (oracle : Except String (List (String × JsonVal))) :
    Except String QueryType :=
  match oracle with
  | Except.error e => Except.error e
  | Except.ok response =>
    let raw := (response.lookup "query_type").getD (JsonVal.str "GENERAL")
    match queryTypeOfJson raw with
    | some t => Except.ok t
    | none => Except.ok QueryType.GENERAL

/-- `QueryClassifier.needs_retrieval`. -/
def needs_retrieval (query_type : QueryType) : Bool :=
  query_type != QueryType.GENERAL

/-! ### Chunker (backend/rag/services/chunker.py)

The tiktoken encoder is external; `chunk_text` is parametrised by `encode` and
`decode`. The Python `while start < len(tokens)` loop is embedded with an
explicit fuel argument; `none` means the fuel ran out before the loop exited,
so a result of `none` for every fuel value exhibits non-termination. -/

/-- The chunking loop body: slice `tokens[start:min(start+chunk_size, len)]`,
append its decoding, advance `start += chunk_size - chunk_overlap` (Python int
arithmetic, so possibly negative), and apply the source's safety check
`if start <= 0: start = chunk_size`. -/
def chunkLoop (decode : List Nat → String) (tokens : List Nat)
    (chunk_size chunk_overlap : Nat) :
    Nat → Nat → List String → Option (List String)
  | 0, _, _ => none
  | fuel + 1, start, chunks =>
    if start < tokens.length then
      let stop := min (start + chunk_size) tokens.length
      let chunk_tokens := (tokens.drop start).take (stop - start)
      let chunks2 := chunks ++ [decode chunk_tokens]
      let next : Int := (start : Int) + ((chunk_size : Int) - (chunk_overlap : Int))
      let start2 : Nat := if next ≤ 0 then chunk_size else next.toNat
      chunkLoop decode tokens chunk_size chunk_overlap fuel start2 chunks2
    else
      some chunks

/-- `TextChunker.chunk_text(text, chunk_size, chunk_overlap)`. -/
def chunk_text (encode : String → List Nat) (decode : List Nat → String)
    (fuel : Nat) (text : String) (chunk_size : Nat := 500)
    (chunk_overlap : Nat := 100) : Option (List String) :=
  if pyStrip text = "" then some []
  else
    let tokens := encode text
    if tokens.length ≤ chunk_size then some [text]
    else chunkLoop decode tokens chunk_size chunk_overlap fuel 0 []

/-- `TextChunker.count_tokens`. -/
def count_tokens (encode : String → List Nat) (text : String) : Nat :=
  (encode text).length

/-- A concrete instantiation of the external tokenizer interface:
one token per character. -/
def charEncode (s : String) : List Nat :=
  s.data.map Char.toNat

/-- Inverse of `charEncode`. -/
def charDecode (l : List Nat) : String :=
  String.mk (l.map Char.ofNat)

/-! ### OCR service (backend/rag/services/ocr_service.py) -/

/-- The `pytesseract.image_to_data` dictionary: parallel per-detection lists.
Tesseract reports integer confidences, with `-1` marking an invalid (non-text)
detection; the source converts valid ones with `float(c)`. -/
structure OCRData where
  conf : List Int
  width : List Nat
  height : List Nat
  text : List String
deriving Repr

/-- `OCRService._calculate_confidence`: mean of `float(c)` over valid
detections, `0.0` when there are none. -/
def calculate_confidence (d : OCRData) : ℚ :=
  let confidences := (d.conf.filter (fun c => decide (c ≠ -1))).map
    (fun (c : Int) => (c : ℚ))
  if confidences.isEmpty then 0
  else confidences.sum / (confidences.length : ℚ)

/-- `OCRService._calculate_text_coverage`: total valid-box area over image
area, capped at 1.0, and 0.0 when the image area is zero. -/
def calculate_text_coverage (d : OCRData) (imageWidth imageHeight : Nat) : ℚ :=
  let image_area : Nat := imageWidth * imageHeight
  let total_text_area : Nat :=
    (((List.range d.text.length).filter
        (fun i => decide (d.conf.getD i (-1) ≠ -1))).map
      (fun i => d.width.getD i 0 * d.height.getD i 0)).sum
  if 0 < image_area then min ((total_text_area : ℚ) / (image_area : ℚ)) 1 else 0

/-- `OCRService._calculate_box_density`: valid-box count over the expected
dense-box count `image_area / 10000`, capped at 1.0, and 0.0 when the
expectation is not positive. -/
def calculate_box_density (d : OCRData) (imageWidth imageHeight : Nat) : ℚ :=
  let valid_boxes : Nat := (d.conf.filter (fun c => decide (c ≠ -1))).length
  let image_area : Nat := imageWidth * imageHeight
  let expected_dense : ℚ := (image_area : ℚ) / 10000
  if 0 < expected_dense then min ((valid_boxes : ℚ) / expected_dense) 1 else 0

/-- `OCRService._needs_vision_api`: the three thresholds come from Django
settings (outside the core sources), so they are parameters here. -/
def needs_vision_api (text_coverage box_density confidence : ℚ)
    (covThreshold densityThreshold confThreshold : ℚ) : Bool :=
  decide (text_coverage < covThreshold) ||
    decide (box_density < densityThreshold) ||
      decide (confidence < confThreshold)

/-! ### Image processor (backend/rag/services/image_processor.py) -/

/-- `ImageProcessor.process_image`. The OCR result text and `needs_vision`
flag come from `OCRService.extract_text_and_signals`; the vision oracle
(`VisionService.describe_image`) is external and is consulted only on the
`needs_vision` branch, so its output is the parameter `vision_description`.
The source merges with
`f"{vision_description}\n\n{ocr_result.text}".strip()` when the vision output
is truthy (non-empty), and otherwise returns the OCR text. -/
def process_image (ocr_text : String) (needs_vision : Bool)
    (vision_description : String) : String :=
  let final_text := ocr_text
  if needs_vision then
    if vision_description ≠ "" then
      pyStrip (vision_description ++ "\n\n" ++ ocr_text)
    else final_text
  else final_text

/-! ### Concrete data used by witnesses -/

/-- A two-tenant database: one chunk owned by tenant `A`, one by tenant `B`
(disjoint chunk sets). -/
def dbExample : List DBRow :=
  [ { id := 1, content := "visa docs", document_id := "d1", doc_type := "pdf",
      asset_id := some "a1", user_id := "A" },
    { id := 2, content := "other tenant", document_id := "d2", doc_type := "pdf",
      asset_id := none, user_id := "B" } ]

/-- A concrete cosine-distance assignment for `dbExample` against some fixed
query embedding. -/
def distExample (r : DBRow) : ℚ :=
  if r.id = 1 then 0.39 else 0.1

/-- The chunk of tenant `A` in `dbExample`, as retrieved (similarity
`1 - 0.39 = 0.61`). -/
def chunkEx : RetrievedChunk :=
  { content := "visa docs", document_id := "d1", doc_type := "pdf",
    similarity := 1 - 0.39, asset_id := some "a1" }

/-- Evaluating the retriever on `dbExample` for tenant `A`: only tenant `A`'s
chunk comes back. -/
theorem retrieve_dbExample_eq :
    retrieve dbExample distExample "A" 8 = [chunkEx] := by
  have h : ("a1" : String) ≠ "" := by decide
  norm_num [retrieve, execute_vector_search, dbExample, distExample, chunkEx,
    rowToChunk, SIMILARITY_THRESHOLD, List.insertionSort, List.take,
    List.filter, h]

/-! ### Claim theorems -/

/-- C1: Tenant isolation of retrieval: every `RetrievedChunk` returned by
`retrieve(query, tenant, top_k)` is the image of a database row whose
`user_id` equals the `tenant` argument — so for tenants with disjoint chunk
sets no invocation ever returns another tenant's chunk. -/
theorem retrieve_tenant_isolation (db : List DBRow) (dist : DBRow → ℚ)
    (tenant : String) (top_k : Nat) (c : RetrievedChunk)
    (hc : c ∈ retrieve db dist tenant top_k) :
    ∃ r : DBRow, r ∈ db ∧ r.user_id = tenant ∧ c = rowToChunk dist r := by
  rcases List.mem_map.mp hc with ⟨r, hr, rfl⟩
  have h2 : r ∈ db.filter (fun r => r.user_id == tenant &&
      decide (SIMILARITY_THRESHOLD ≤ 1 - dist r)) :=
    (List.perm_insertionSort _ _).mem_iff.mp ((List.take_sublist _ _).subset hr)
  have h3 := List.mem_filter.mp h2
  have h4 := h3.2
  simp only [Bool.and_eq_true, beq_iff_eq, decide_eq_true_eq] at h4
  exact ⟨r, h3.1, h4.1, rfl⟩

/-- Witness for C1: on the concrete two-tenant `dbExample`, the chunk
retrieved for tenant `A` originates from a row owned by `A`. -/
theorem retrieve_tenant_isolation_witness :
    ∃ r : DBRow, r ∈ dbExample ∧ r.user_id = "A" ∧
      chunkEx = rowToChunk distExample r :=
  retrieve_tenant_isolation dbExample distExample "A" 8 chunkEx
    (by simp [retrieve_dbExample_eq])

/-- C4: Retrieval threshold, ordering and limit: `retrieve` never returns a
chunk with similarity below `SIMILARITY_THRESHOLD = 0.25`, its output is
sorted by similarity in descending order, and its length is at most
`top_k`. -/
theorem retrieve_threshold_sorted_limit (db : List DBRow) (dist : DBRow → ℚ)
    (tenant : String) (top_k : Nat) :
    (∀ c ∈ retrieve db dist tenant top_k, SIMILARITY_THRESHOLD ≤ c.similarity) ∧
    List.Sorted (fun a b : RetrievedChunk => b.similarity ≤ a.similarity)
      (retrieve db dist tenant top_k) ∧
    (retrieve db dist tenant top_k).length ≤ top_k := by
  refine ⟨?_, ?_, ?_⟩
  · intro c hc
    rcases List.mem_map.mp hc with ⟨r, hr, rfl⟩
    have h2 : r ∈ db.filter (fun r => r.user_id == tenant &&
        decide (SIMILARITY_THRESHOLD ≤ 1 - dist r)) :=
      (List.perm_insertionSort _ _).mem_iff.mp
        ((List.take_sublist _ _).subset hr)
    have h4 := (List.mem_filter.mp h2).2
    simp only [Bool.and_eq_true, beq_iff_eq, decide_eq_true_eq] at h4
    exact h4.2
  · have hs : List.Sorted (fun a b => dist a ≤ dist b)
        (List.insertionSort (fun a b => dist a ≤ dist b)
          (db.filter (fun r => r.user_id == tenant &&
            decide (SIMILARITY_THRESHOLD ≤ 1 - dist r)))) := by
      haveI : IsTotal DBRow (fun a b => dist a ≤ dist b) :=
        ⟨fun a b => le_total _ _⟩
      haveI : IsTrans DBRow (fun a b => dist a ≤ dist b) :=
        ⟨fun a b c hab hbc => le_trans hab hbc⟩
      exact List.sorted_insertionSort _ _
    have htake : List.Pairwise (fun a b => dist a ≤ dist b)
        ((List.insertionSort (fun a b => dist a ≤ dist b)
          (db.filter (fun r => r.user_id == tenant &&
            decide (SIMILARITY_THRESHOLD ≤ 1 - dist r)))).take top_k) :=
      List.Pairwise.sublist (List.take_sublist _ _) hs
    exact List.pairwise_map.mpr
      (htake.imp (fun hab => sub_le_sub_left hab 1))
  · simp only [retrieve, execute_vector_search, List.length_map]
    exact List.length_take_le _ _

/-- Witness for C4: the concrete retrieved chunk clears the 0.25 threshold. -/
theorem retrieve_threshold_sorted_limit_witness :
    SIMILARITY_THRESHOLD ≤ chunkEx.similarity :=
  (retrieve_threshold_sorted_limit dbExample distExample "A" 8).1 chunkEx
    (by simp [retrieve_dbExample_eq])

/-- The `SourceSnippet` a chunk contributes in `Generator.generate`:
`asset_id` (or `"unknown"` when falsy) and the first at most 100 characters of
the chunk content. Stated separately so the claim theorems can name it. -/
def snippetOf (c : RetrievedChunk) : SourceSnippet :=
  { asset_id :=
      match c.asset_id with
      | some s => if s = "" then "unknown" else s
      | none => "unknown"
    excerpt := c.content.take 100 }

/-- Unfolding of the streaming emission loop: all upstream fragments become
`token` events in order, followed by the single `done` event. -/
theorem emitTokens_eq (toks : List String) (uc : Bool)
    (srcs : Option (List (String × String))) :
    emitTokens toks uc srcs =
      toks.map StreamEvent.token ++ [StreamEvent.done uc srcs] := by
  induction toks with
  | nil => rfl
  | cons t rest ih => simp [emitTokens, ih]

/-- C5: Generation context-gating: with null or empty `chunks`,
`used_context` is false and `sources` is null; with non-empty `chunks`,
`used_context` is true and `sources` is exactly the snippets of the first (at
most 3) chunks in order, each with a ≤100-character excerpt of that chunk's
content; and `sources` is non-null only when `used_context` is true. -/
theorem generate_context_gating (answer question : String)
    (chunks : Option (List RetrievedChunk)) :
    ((chunks = none ∨ chunks = some []) →
      (generate answer question chunks).used_context = false ∧
      (generate answer question chunks).sources = none) ∧
    (∀ cs, chunks = some cs → cs ≠ [] →
      (generate answer question chunks).used_context = true ∧
      (generate answer question chunks).sources =
        some ((cs.take 3).map snippetOf) ∧
      ((cs.take 3).map snippetOf).length ≤ 3) ∧
    ((generate answer question chunks).sources ≠ none →
      (generate answer question chunks).used_context = true) := by
  refine ⟨?_, ?_, ?_⟩
  · rintro (rfl | rfl)
    · exact ⟨rfl, rfl⟩
    · exact ⟨rfl, rfl⟩
  · rintro cs rfl hne
    cases cs with
    | nil => exact absurd rfl hne
    | cons c rest =>
      refine ⟨?_, ?_, ?_⟩
      · simp [generate, has_relevant_context]
      · simp [generate, has_relevant_context, snippetOf]
        try rfl
      · simp only [List.length_map, List.length_take]
        exact min_le_left _ _
  · intro hs
    cases chunks with
    | none => exact absurd rfl hs
    | some cs =>
      by_cases h : has_relevant_context cs = true
      · simp [generate, h]
      · rw [Bool.not_eq_true] at h
        simp [generate, h] at hs

/-- Witness for C5: a non-empty chunk list yields `used_context = true` and
the snippet of the first chunk. -/
theorem generate_context_gating_witness :
    (generate "ans" "What visa type am I applying for?"
      (some [chunkEx])).used_context = true ∧
    (generate "ans" "What visa type am I applying for?"
      (some [chunkEx])).sources = some (([chunkEx].take 3).map snippetOf) ∧
    (([chunkEx].take 3).map snippetOf).length ≤ 3 :=
  (generate_context_gating "ans" "What visa type am I applying for?"
    (some [chunkEx])).2.1 [chunkEx] rfl (by simp)

/-- C6: Streaming event protocol: `stream_generate` produces the upstream
fragments as `token` events, in arrival order with no buffering or
reordering, followed by exactly one terminal `done` event, emitted only after
the upstream token stream is exhausted. -/
theorem stream_generate_event_protocol (toks : List String) (question : String)
    (chunks : Option (List RetrievedChunk)) :
    ∃ uc srcs, stream_generate toks question chunks =
      toks.map StreamEvent.token ++ [StreamEvent.done uc srcs] :=
  ⟨_, _, emitTokens_eq toks _ _⟩

/-- The dictionary entry a chunk contributes in `stream_generate` is the
(asset_id, excerpt) pair of the `SourceSnippet` it contributes in
`generate`. -/
theorem snippet_pair_eq (c : RetrievedChunk) :
    (match c.asset_id with
     | some s => if s = "" then "unknown" else s
     | none => "unknown",
     c.content.take 100) =
      ((snippetOf c).asset_id, (snippetOf c).excerpt) := by
  cases hc : c.asset_id <;> simp [snippetOf, hc]

/-- The streaming source entries are the pointwise image of the batch
source snippets. -/
theorem stream_sources_eq (cs : List RetrievedChunk) :
    ((cs.take 3).map (fun c =>
      (match c.asset_id with
       | some s => if s = "" then "unknown" else s
       | none => "unknown",
       c.content.take 100))) =
    ((cs.take 3).map snippetOf).map (fun s => (s.asset_id, s.excerpt)) := by
  rw [List.map_map]
  exact List.map_congr_left (fun c _ => snippet_pair_eq c)

/-- C9: Batch/stream decision equivalence: the terminal `done` event of
`stream_generate` carries exactly the `used_context` flag and the
(asset_id, excerpt) source entries, in order, of the `GeneratedAnswer` that
`generate` returns on the same inputs. -/
theorem stream_batch_decision_equivalence (answer : String) (toks : List String)
    (question : String) (chunks : Option (List RetrievedChunk)) :
    (stream_generate toks question chunks).getLast? =
      some (StreamEvent.done (generate answer question chunks).used_context
        ((generate answer question chunks).sources.map
          (List.map (fun s => (s.asset_id, s.excerpt))))) := by
  have hlast : ∀ uc srcs,
      (emitTokens toks uc srcs).getLast? = some (StreamEvent.done uc srcs) := by
    intro uc srcs
    rw [emitTokens_eq]
    exact List.getLast?_concat _
  cases chunks with
  | none => exact hlast false none
  | some cs =>
    simp only [stream_generate, generate]
    rw [hlast]
    by_cases h : (has_relevant_context cs && !cs.isEmpty) = true
    · rw [if_pos h, if_pos h, Option.map_some', stream_sources_eq]
      rfl
    · rw [if_neg h, if_neg h, Option.map_none']

/-- Inversion of the enum construction: a successful `QueryType(raw)` means
the raw JSON value was exactly the member's string. -/
theorem queryTypeOfJson_inv (v : JsonVal) (t : QueryType)
    (h : queryTypeOfJson v = some t) : v = JsonVal.str (queryTypeName t) := by
  unfold queryTypeOfJson at h
  split_ifs at h with h1 h2 h3
  · cases Option.some.inj h
    exact h1
  · cases Option.some.inj h
    exact h2
  · cases Option.some.inj h
    exact h3

/-- Unfolding of `classify` on a successfully parsed oracle response. -/
theorem classify_ok_eq (response : List (String × JsonVal)) :
    classify (Except.ok response) =
      (match queryTypeOfJson ((response.lookup "query_type").getD
          (JsonVal.str "GENERAL")) with
       | some t => Except.ok t
       | none => Except.ok QueryType.GENERAL) := rfl

/-- A non-GENERAL classification can only come from the oracle naming exactly
that member string in the `query_type` field. -/
theorem classify_ok_inv (response : List (String × JsonVal)) (t : QueryType)
    (h : classify (Except.ok response) = Except.ok t)
    (ht : t ≠ QueryType.GENERAL) :
    response.lookup "query_type" = some (JsonVal.str (queryTypeName t)) := by
  rw [classify_ok_eq] at h
  cases hq : queryTypeOfJson ((response.lookup "query_type").getD
      (JsonVal.str "GENERAL")) with
  | none =>
    rw [hq] at h
    exact absurd (Except.ok.inj h).symm ht
  | some u =>
    rw [hq] at h
    cases Except.ok.inj h
    have hv := queryTypeOfJson_inv _ _ hq
    cases hl : response.lookup "query_type" with
    | none =>
      rw [hl] at hv
      simp only [Option.getD_none] at hv
      have hname := (JsonVal.str.inj hv).symm
      cases t with
      | GENERAL => exact absurd rfl ht
      | PROFILE_DEPENDENT => exact absurd hname (by decide)
      | HYBRID => exact absurd hname (by decide)
    | some v2 =>
      rw [hl] at hv
      simp only [Option.getD_some] at hv
      rw [hv]

/-- C2 counterexample: an exception from the oracle call (network failure or a
`json.loads` parse failure inside `complete_json`) propagates out of
`classify` instead of producing the GENERAL fail-safe — the `await` sits
outside the `try` block, which guards only the enum construction. -/
theorem classify_raises_counterexample :
    classify (Except.error "connection error") ≠
      Except.ok QueryType.GENERAL :=
  fun h => Except.noConfusion h

/-- C2 (amended): whenever the oracle call returns and its output parses as a
JSON object, `classify` returns some QueryType without raising; it returns
PROFILE_DEPENDENT or HYBRID only when the `query_type` field names exactly
that value, and otherwise (missing field, unknown or malformed value) returns
GENERAL; but an exception raised by the oracle call propagates unchanged. -/
theorem classify_fail_safe_amended (response : List (String × JsonVal)) :
    (∃ t, classify (Except.ok response) = Except.ok t) ∧
    (classify (Except.ok response) = Except.ok QueryType.PROFILE_DEPENDENT →
      response.lookup "query_type" =
        some (JsonVal.str "PROFILE_DEPENDENT")) ∧
    (classify (Except.ok response) = Except.ok QueryType.HYBRID →
      response.lookup "query_type" = some (JsonVal.str "HYBRID")) ∧
    (∀ e, classify (Except.error e) = Except.error e) := by
  refine ⟨?_, ?_, ?_, fun e => rfl⟩
  · cases hq : queryTypeOfJson ((response.lookup "query_type").getD
        (JsonVal.str "GENERAL")) with
    | none => exact ⟨QueryType.GENERAL, by rw [classify_ok_eq, hq]⟩
    | some t => exact ⟨t, by rw [classify_ok_eq, hq]⟩
  · intro h
    exact classify_ok_inv response QueryType.PROFILE_DEPENDENT h (by decide)
  · intro h
    exact classify_ok_inv response QueryType.HYBRID h (by decide)

/-- Witness for C2 (amended): a well-formed HYBRID response classifies as
HYBRID, and the inversion recovers the field value. -/
theorem classify_fail_safe_amended_witness :
    List.lookup "query_type" [("query_type", JsonVal.str "HYBRID")] =
      some (JsonVal.str "HYBRID") :=
  (classify_fail_safe_amended [("query_type", JsonVal.str "HYBRID")]).2.2.1 rfl

/-- On `charEncode "ab"` (two tokens) with `chunk_size = 1` and
`chunk_overlap = 1`, once the loop position reaches `chunk_size = 1` it is
stuck there forever: the stride `1 - 1 = 0` never advances it and the safety
check fires only when the position is ≤ 0, so every amount of fuel is
consumed. -/
theorem chunkLoop_ab_stuck (fuel : Nat) :
    ∀ acc, chunkLoop charDecode (charEncode "ab") 1 1 fuel 1 acc = none := by
  induction fuel with
  | zero =>
    intro acc
    rfl
  | succ n ih =>
    intro acc
    have hstep : chunkLoop charDecode (charEncode "ab") 1 1 (n + 1) 1 acc =
        chunkLoop charDecode (charEncode "ab") 1 1 n 1
          (acc ++ [charDecode (((charEncode "ab").drop 1).take 1)]) := rfl
    rw [hstep]
    exact ih _

/-- C3: the chunker does not terminate under the degenerate configuration —
on a two-token text with `chunk_size = 1` and `chunk_overlap = 1` (so
computed stride 0), `chunk_text` fails to finish for every fuel bound,
exhibiting the Python `while` loop's divergence: the safety check resets a
non-positive position to `chunk_size` but never forces a positive stride. -/
theorem chunk_text_diverges_on_degenerate_overlap (fuel : Nat) :
    chunk_text charEncode charDecode fuel "ab" 1 1 = none := by
  cases fuel with
  | zero => rfl
  | succ n =>
    have hstep : chunk_text charEncode charDecode (n + 1) "ab" 1 1 =
        chunkLoop charDecode (charEncode "ab") 1 1 n 1
          [charDecode (((charEncode "ab").drop 0).take 1)] := rfl
    rw [hstep]
    exact chunkLoop_ab_stuck n _

/-- C7: Vision escalation rule: `needs_vision` holds iff at least one of the
three OCR quality signals is below its threshold; when all three are at or
above their thresholds it is false, and any single signal below its
threshold makes it true. -/
theorem needs_vision_escalation (tc bd conf covT denT confT : ℚ) :
    (needs_vision_api tc bd conf covT denT confT = true ↔
      (tc < covT ∨ bd < denT ∨ conf < confT)) ∧
    (covT ≤ tc → denT ≤ bd → confT ≤ conf →
      needs_vision_api tc bd conf covT denT confT = false) ∧
    (tc < covT → needs_vision_api tc bd conf covT denT confT = true) ∧
    (bd < denT → needs_vision_api tc bd conf covT denT confT = true) ∧
    (conf < confT → needs_vision_api tc bd conf covT denT confT = true) := by
  have hiff : needs_vision_api tc bd conf covT denT confT = true ↔
      (tc < covT ∨ bd < denT ∨ conf < confT) := by
    simp [needs_vision_api, or_assoc]
  refine ⟨hiff, ?_, ?_, ?_, ?_⟩
  · intro h1 h2 h3
    have hnot : ¬ (tc < covT ∨ bd < denT ∨ conf < confT) := by
      push_neg
      exact ⟨h1, h2, h3⟩
    cases hb : needs_vision_api tc bd conf covT denT confT
    · rfl
    · exact absurd (hiff.mp hb) hnot
  · intro h
    exact hiff.mpr (Or.inl h)
  · intro h
    exact hiff.mpr (Or.inr (Or.inl h))
  · intro h
    exact hiff.mpr (Or.inr (Or.inr h))

/-- Witness for C7, mirroring the spec's synthetic signals scaled by 100:
with thresholds (50, 50, 60), strong signals (80, 80, 90) do not escalate,
and forcing any single signal below its threshold escalates. -/
theorem needs_vision_escalation_witness :
    needs_vision_api 80 80 90 50 50 60 = false ∧
    needs_vision_api 20 80 90 50 50 60 = true ∧
    needs_vision_api 80 20 90 50 50 60 = true ∧
    needs_vision_api 80 80 40 50 50 60 = true :=
  ⟨(needs_vision_escalation 80 80 90 50 50 60).2.1 (by decide) (by decide)
      (by decide),
    (needs_vision_escalation 20 80 90 50 50 60).2.2.1 (by decide),
    (needs_vision_escalation 80 20 90 50 50 60).2.2.2.1 (by decide),
    (needs_vision_escalation 80 80 40 50 50 60).2.2.2.2 (by decide)⟩

/-- C8 counterexample: with empty OCR text (reachable: a blank image OCRs to
`""` and escalates to vision) and non-empty vision output, the merge is
stripped, so `process_image` returns the vision description alone rather
than `vision ++ "\n\n" ++ ocr_text`. -/
theorem process_image_strip_counterexample :
    process_image "" true "desc" ≠ "desc" ++ "\n\n" ++ "" := by decide

/-- C8 (amended): with `needs_vision` and non-empty vision output the result
is the whitespace-stripped concatenation `strip(vision ++ "\n\n" ++ ocr)`
(equal to the plain concatenation whenever both parts are non-empty stripped
strings, as the OCR and vision services produce); empty vision output falls
back to the OCR text alone; and without `needs_vision` the OCR text is
returned unchanged, independent of anything the vision oracle might say. -/
theorem process_image_merge_amended (ocr_text vision_description : String) :
    (vision_description ≠ "" →
      process_image ocr_text true vision_description =
        pyStrip (vision_description ++ "\n\n" ++ ocr_text)) ∧
    (process_image ocr_text true "" = ocr_text) ∧
    (∀ v1 v2 : String, process_image ocr_text false v1 =
      process_image ocr_text false v2) ∧
    (∀ v : String, process_image ocr_text false v = ocr_text) := by
  refine ⟨?_, rfl, fun v1 v2 => rfl, fun v => rfl⟩
  intro h
  simp [process_image, h]

/-- Witness for C8 (amended) on non-empty OCR and vision text. -/
theorem process_image_merge_amended_witness :
    process_image "ocr text" true "a chart" =
      pyStrip ("a chart" ++ "\n\n" ++ "ocr text") :=
  (process_image_merge_amended "ocr text" "a chart").1 (by decide)

/-- C10: OCR signal computation is total and bounded: zero valid detections
give confidence 0 and a zero image area gives coverage and density 0 (the
guarded divisions never divide by zero); coverage and density always lie in
[0,1]; and when every valid per-detection confidence lies in [0,100], the
mean confidence lies in [0,100]. -/
theorem ocr_signals_total_and_bounded (d : OCRData) (w h : Nat) :
    (d.conf.filter (fun c => decide (c ≠ -1)) = [] →
      calculate_confidence d = 0) ∧
    (w * h = 0 →
      calculate_text_coverage d w h = 0 ∧ calculate_box_density d w h = 0) ∧
    (0 ≤ calculate_text_coverage d w h ∧ calculate_text_coverage d w h ≤ 1) ∧
    (0 ≤ calculate_box_density d w h ∧ calculate_box_density d w h ≤ 1) ∧
    ((∀ c ∈ d.conf, c ≠ -1 → 0 ≤ c ∧ c ≤ 100) →
      0 ≤ calculate_confidence d ∧ calculate_confidence d ≤ 100) := by
  refine ⟨?_, ?_, ?_, ?_, ?_⟩
  · intro hnil
    simp only [calculate_confidence, hnil, List.map_nil, List.isEmpty_nil,
      if_true]
  · intro h0
    constructor
    · simp [calculate_text_coverage, h0]
    · simp [calculate_box_density, h0]
  · simp only [calculate_text_coverage]
    split
    · exact ⟨le_min (by positivity) (by norm_num), min_le_right _ _⟩
    · norm_num
  · simp only [calculate_box_density]
    split
    · exact ⟨le_min (by positivity) (by norm_num), min_le_right _ _⟩
    · norm_num
  · intro hb
    simp only [calculate_confidence]
    split
    · norm_num
    · rename_i hne
      have hmem : ∀ x ∈ (d.conf.filter (fun c => decide (c ≠ -1))).map
          (fun (c : Int) => (c : ℚ)), 0 ≤ x ∧ x ≤ 100 := by
        intro x hx
        rcases List.mem_map.mp hx with ⟨c, hc, rfl⟩
        have hcf := List.mem_filter.mp hc
        have hc1 : c ≠ -1 := by simpa using hcf.2
        have hcb := hb c hcf.1 hc1
        exact ⟨by exact_mod_cast hcb.1, by exact_mod_cast hcb.2⟩
      have hne2 : (d.conf.filter (fun c => decide (c ≠ -1))).map
          (fun (c : Int) => (c : ℚ)) ≠ [] := by
        intro hemp
        refine hne ?_
        rw [hemp]
        rfl
      have hlen : 0 < ((d.conf.filter (fun c => decide (c ≠ -1))).map
          (fun (c : Int) => (c : ℚ))).length := List.length_pos.mpr hne2
      constructor
      · exact div_nonneg
          (List.sum_nonneg (fun x hx => (hmem x hx).1)) (by positivity)
      · rw [div_le_iff₀ (by exact_mod_cast hlen)]
        calc ((d.conf.filter (fun c => decide (c ≠ -1))).map
              (fun (c : Int) => (c : ℚ))).sum
            ≤ ((d.conf.filter (fun c => decide (c ≠ -1))).map
              (fun (c : Int) => (c : ℚ))).length • (100 : ℚ) :=
              List.sum_le_card_nsmul _ _ (fun x hx => (hmem x hx).2)
          _ = 100 * ((d.conf.filter (fun c => decide (c ≠ -1))).map
              (fun (c : Int) => (c : ℚ))).length := by
              rw [nsmul_eq_mul]
              ring

/-- Concrete OCR data for the C10 witness: three detections, one invalid. -/
def ocrExample : OCRData :=
  { conf := [50, -1, 80], width := [10, 5, 10], height := [10, 5, 10],
    text := ["a", "b", "c"] }

/-- Witness for C10: the mean confidence of `ocrExample` is within
[0, 100]. -/
theorem ocr_signals_total_and_bounded_witness :
    0 ≤ calculate_confidence ocrExample ∧
      calculate_confidence ocrExample ≤ 100 :=
  (ocr_signals_total_and_bounded ocrExample 100 100).2.2.2.2 (by decide)

end Rag
